import Mathlib

/-!
Shallow embedding of `reqwest-middleware` (src/reqwest-middleware/src/client.rs)
in Lean 4, together with proofs of the specification claims.

Rust effects are rendered functionally: a mutable `&mut Extensions` becomes
explicit state passing, an asynchronous side-effecting service call becomes a
pure function that additionally returns a trace of observable events (the
writer rendering of its side effects), and fallible operations return `Except`.
Generic Rust traits (`Layer`, `Service`, `RequestInitialiser`) become type
classes over the function type of services.
-/

set_option autoImplicit false
set_option linter.unusedVariables false

namespace RM

/-- Observable events emitted by instrumented pipeline stages: a middleware
unit entering, a middleware unit leaving, the terminal transport firing, an
initialiser running, and a probe reporting a context-bag lookup. -/
inductive Event where
  | enter (id : Nat)
  | leave (id : Nat)
  | transport
  | initRun (id : Nat)
  | observed (key : Nat) (val : Option Nat)
  deriving DecidableEq, Repr

abbrev Trace := List Event

/-- Modelled from the spec: the external `task_local_extensions::Extensions`
context bag (spec section 4.1) — a type-indexed store, one slot per type,
insert overwrites. Type identities and values are rendered as naturals. -/
structure Extensions where
  entries : List (Nat × Nat)
  deriving DecidableEq, Repr

def Extensions.new : Extensions := ⟨[]⟩

/-- Modelled from the spec: `insert` stores a value under its type identity,
overwriting any prior value of that type (one slot per type). -/
def Extensions.insert (e : Extensions) (key val : Nat) : Extensions :=
  ⟨(key, val) :: e.entries.filter (fun p => p.1 ≠ key)⟩

/-- Modelled from the spec: `get` retrieves the current value of a type
identity if present; absence is not a failure. -/
def Extensions.get (e : Extensions) (key : Nat) : Option Nat :=
  (e.entries.find? (fun p => p.1 = key)).map (fun p => p.2)

/-- Request body: either buffered (replayable) bytes or a streaming source. -/
inductive Body where
  | buffered (data : List Nat)
  | stream (id : Nat)
  deriving DecidableEq, Repr

/-- An immutable materialized request (reqwest `Request`): method, target,
headers, body, per-request timeout. -/
structure Request where
  method : String
  url : String
  headers : List (String × String)
  body : Option Body
  timeout : Option Nat
  deriving DecidableEq, Repr

/-- A response from the transport engine. -/
structure Response where
  status : Nat
  body : List Nat
  deriving DecidableEq, Repr

/-- Modelled from the spec: the external engine's error type
(`reqwest::Error`), covering both request-building failures and
transport-level failures. -/
inductive ReqwestError where
  | build (msg : String)
  | transport (msg : String)
  deriving DecidableEq, Repr

/-- The crate's error enum (`Error` in error.rs, missing from src/):
a middleware error or a wrapped engine error. Modelled from the spec error
taxonomy (section 7). -/
inductive Error where
  | Middleware (msg : String)
  | Reqwest (e : ReqwestError)
  deriving DecidableEq, Repr

/-- The `From<reqwest::Error> for Error` conversion used by `?` in `send` and
by `ReqwestService::call`. -/
def Error.from (e : ReqwestError) : Error := Error.Reqwest e

/-- Whether an `Error` is a build error in the spec taxonomy: the request
could not be materialized from the builder. -/
def Error.isBuild : Error → Bool
  | Error.Reqwest (ReqwestError.build _) => true
  | _ => false

/-- Modelled from the spec: header-name validity as checked by the external
engine at materialization time. -/
def validHeaderName (s : String) : Bool :=
  !s.data.isEmpty && s.data.all (fun c => c.isAlphanum || c = '-')

/-- Modelled from the spec: header-value validity (an invalid header value is
the spec's canonical build failure). -/
def validHeaderValue (s : String) : Bool :=
  s.data.all (fun c => c ≠ '\n' && c ≠ '\r')

deriving instance DecidableEq for Except

/-- Modelled from the spec: the external `reqwest::RequestBuilder`. It holds
either the pending request or the first recorded error; every fluent mutation
is pure and failures are deferred to `build`. -/
structure ReqwestRequestBuilder where
  req : Except ReqwestError Request
  deriving DecidableEq, Repr

namespace ReqwestRequestBuilder

/-- Modelled from the spec: apply a pure mutation to the pending request,
keeping any previously recorded error. -/
def update (b : ReqwestRequestBuilder) (f : Request → Request) :
    ReqwestRequestBuilder :=
  match b.req with
  | Except.error e => ⟨Except.error e⟩
  | Except.ok r => ⟨Except.ok (f r)⟩

/-- Modelled from the spec: add a header; an invalid name or value is recorded
and surfaced only at materialization. -/
def header (b : ReqwestRequestBuilder) (key val : String) :
    ReqwestRequestBuilder :=
  match b.req with
  | Except.error e => ⟨Except.error e⟩
  | Except.ok r =>
    if validHeaderName key && validHeaderValue val then
      ⟨Except.ok { r with headers := r.headers ++ [(key, val)] }⟩
    else
      ⟨Except.error (ReqwestError.build "invalid header")⟩

/-- Modelled from the spec: merge a header map. -/
def headers (b : ReqwestRequestBuilder) (hs : List (String × String)) :
    ReqwestRequestBuilder :=
  hs.foldl (fun acc p => acc.header p.1 p.2) b

/-- Modelled from the spec: basic authorization header. -/
def basic_auth (b : ReqwestRequestBuilder) (username : String)
    (password : Option String) : ReqwestRequestBuilder :=
  b.update (fun r =>
    { r with headers :=
        r.headers ++ [("authorization", "Basic " ++ username ++ ":" ++ password.getD "")] })

/-- Modelled from the spec: bearer authorization header. -/
def bearer_auth (b : ReqwestRequestBuilder) (token : String) :
    ReqwestRequestBuilder :=
  b.update (fun r =>
    { r with headers := r.headers ++ [("authorization", "Bearer " ++ token)] })

/-- Modelled from the spec: set the request body. -/
def body (b : ReqwestRequestBuilder) (bd : Body) : ReqwestRequestBuilder :=
  b.update (fun r => { r with body := some bd })

/-- Modelled from the spec: set the per-request timeout. -/
def timeout (b : ReqwestRequestBuilder) (t : Nat) : ReqwestRequestBuilder :=
  b.update (fun r => { r with timeout := some t })

/-- Modelled from the spec: set a multipart form body (buffered encoding of
the form parts). -/
def multipart (b : ReqwestRequestBuilder) (form : List Nat) :
    ReqwestRequestBuilder :=
  b.update (fun r => { r with body := some (Body.buffered form) })

/-- Modelled from the spec: append a serialized query string to the target. -/
def query (b : ReqwestRequestBuilder) (q : String) : ReqwestRequestBuilder :=
  b.update (fun r => { r with url := r.url ++ "?" ++ q })

/-- Modelled from the spec: set a form-encoded body from serialized input. -/
def form (b : ReqwestRequestBuilder) (f : String) : ReqwestRequestBuilder :=
  b.update (fun r =>
    { r with
      headers := r.headers ++ [("content-type", "application/x-www-form-urlencoded")],
      body := some (Body.buffered (f.toList.map Char.toNat)) })

/-- Modelled from the spec: set a JSON body from serialized input. -/
def json (b : ReqwestRequestBuilder) (j : String) : ReqwestRequestBuilder :=
  b.update (fun r =>
    { r with
      headers := r.headers ++ [("content-type", "application/json")],
      body := some (Body.buffered (j.toList.map Char.toNat)) })

/-- Modelled from the spec: materialization, `build() -> Result<Request, BuildError>`. -/
def build (b : ReqwestRequestBuilder) : Except ReqwestError Request := b.req

/-- Whether the pending request's body is a streaming (non-replayable) source. -/
def isStreaming (b : ReqwestRequestBuilder) : Bool :=
  match b.req with
  | Except.ok r =>
    match r.body with
    | some (Body.stream _) => true
    | _ => false
  | Except.error _ => false

/-- Modelled from the spec: the external builder's clone capability — returns
nothing exactly when the request body is a streaming source. -/
def try_clone (b : ReqwestRequestBuilder) : Option ReqwestRequestBuilder :=
  if b.isStreaming then none else some b

end ReqwestRequestBuilder

/-- The external transport engine handle (`reqwest::Client`): its observable
behavior is the outcome it produces for each materialized request. -/
structure Client where
  execute : Request → Except ReqwestError Response

/-- Modelled from the spec: `reqwest::Client::request` starts a fresh builder
for the given method and target. -/
def Client.request (c : Client) (method : String) (url : String) :
    ReqwestRequestBuilder :=
  ⟨Except.ok { method := method, url := url, headers := [], body := none, timeout := none }⟩

/-- The unit-of-work function shape: a Rust `Service` call
`(Request, &mut Extensions) -> Result<Response, Error>` rendered with explicit
bag state and an event trace for its observable side effects. -/
def ServiceF : Type :=
  Request → Extensions → Except Error Response × Extensions × Trace

/-- The `Layer` trait: a construction-time factory turning one unit of work
into another. -/
class Layer (L : Type) where
  layer : L → ServiceF → ServiceF

/-- The `Identity` no-op layer / initialiser (lib.rs, missing from src/). -/
structure Identity where
  deriving DecidableEq, Repr

/-- The middleware `Stack` composite, exactly as constructed by
`ClientBuilder::with`: a new inner element over the accumulated outer stack. -/
structure Stack (T M : Type) where
  inner : T
  outer : M
  deriving DecidableEq, Repr

/-- The initialiser `RequestStack` composite, exactly as constructed by
`ClientBuilder::with_init`. -/
structure RequestStack (T I : Type) where
  inner : T
  outer : I
  deriving DecidableEq, Repr

/-- Modelled from the spec: `Identity.compose(B) = B` — wrapping with Identity
yields the wrapped unit unchanged. -/
instance instLayerIdentity : Layer Identity where
  layer _ B := B

/-- Modelled from the spec: the stack composition law
Stack(inner, outer).compose(B) = outer.compose(inner.compose(B)). -/
instance instLayerStack {T M : Type} [Layer T] [Layer M] : Layer (Stack T M) where
  layer s B := Layer.layer s.outer (Layer.layer s.inner B)

/-- Modelled from the spec: any function wrapping one unit of work is a layer
(a middleware's `Layer` impl applies the wrapping at construction time). -/
instance instLayerFn : Layer (ServiceF → ServiceF) where
  layer f B := f B

/-- The `RequestInitialiser` trait: transforms the request-builder with
mutable access to the context bag, before any request is materialized; the
trace records its observable effects. -/
class RequestInitialiser (I : Type) where
  init : I → ReqwestRequestBuilder → Extensions →
    ReqwestRequestBuilder × Extensions × Trace

/-- Modelled from the spec: the Identity initialiser is a no-op. -/
instance instInitIdentity : RequestInitialiser Identity where
  init _ rb e := (rb, e, [])

/-- Modelled from the spec: the initialiser chain runs in the same
outer-to-inner order as the middleware stack law — the accumulated outer
chain runs first, then the inner (most recently registered) element. -/
instance instInitStack {T I : Type} [RequestInitialiser T] [RequestInitialiser I] :
    RequestInitialiser (RequestStack T I) where
  init s rb e :=
    let (rb1, e1, t1) := RequestInitialiser.init s.outer rb e
    let (rb2, e2, t2) := RequestInitialiser.init s.inner rb1 e1
    (rb2, e2, t1 ++ t2)

/-- A function from builder and bag to builder and bag (with trace) is an
initialiser. -/
instance instInitFn :
    RequestInitialiser (ReqwestRequestBuilder → Extensions →
      ReqwestRequestBuilder × Extensions × Trace) where
  init f rb e := f rb e

/-- `ClientBuilder` (client.rs lines 18-22): the transport handle plus the
accumulated middleware and initialiser stacks. -/
structure ClientBuilder (M I : Type) where
  client : Client
  middleware_stack : M
  initialiser_stack : I

/-- `ClientBuilder::new` (client.rs lines 24-32): both stacks start at
`Identity`. -/
def ClientBuilder.new (client : Client) : ClientBuilder Identity Identity :=
  { client := client, middleware_stack := Identity.mk, initialiser_stack := Identity.mk }

/-- `ClientBuilder::with` (client.rs lines 36-45); named `withM` because
`with` is reserved in Lean. Produces Stack(inner := layer, outer := old). -/
def ClientBuilder.withM {M I T : Type} (self : ClientBuilder M I) (layer : T) :
    ClientBuilder (Stack T M) I :=
  { client := self.client,
    middleware_stack := { inner := layer, outer := self.middleware_stack },
    initialiser_stack := self.initialiser_stack }

/-- `ClientBuilder::with_init` (client.rs lines 48-57). Produces
RequestStack(inner := initialiser, outer := old). -/
def ClientBuilder.with_init {M I T : Type} (self : ClientBuilder M I)
    (initialiser : T) : ClientBuilder M (RequestStack T I) :=
  { client := self.client,
    middleware_stack := self.middleware_stack,
    initialiser_stack := { inner := initialiser, outer := self.initialiser_stack } }

/-- `ClientWithMiddleware` (client.rs lines 72-76). -/
structure ClientWithMiddleware (M I : Type) where
  inner : Client
  middleware_stack : M
  initialiser_stack : I

/-- `ClientBuilder::build` (client.rs lines 60-66). -/
def ClientBuilder.build {M I : Type} (self : ClientBuilder M I) :
    ClientWithMiddleware M I :=
  { inner := self.client,
    middleware_stack := self.middleware_stack,
    initialiser_stack := self.initialiser_stack }

/-- `From<Client> for ClientWithMiddleware` (client.rs lines 123-131): a
client with no middleware, both stacks `Identity`. -/
def ClientWithMiddleware.fromClient (client : Client) :
    ClientWithMiddleware Identity Identity :=
  { inner := client, middleware_stack := Identity.mk, initialiser_stack := Identity.mk }

/-- `RequestBuilder` (client.rs lines 144-148): the inner reqwest builder, the
client (a borrowed reference in Rust, a value here), and the context bag. -/
structure RequestBuilder (M I : Type) where
  inner : ReqwestRequestBuilder
  client : ClientWithMiddleware M I
  extensions : Extensions

/-- `ReqwestService` (client.rs lines 150-151): the terminal transport unit,
holding a clone of the engine handle. -/
structure ReqwestService where
  client : Client

/-- `ReqwestService::call` (client.rs lines 156-159): executes the request on
the engine, maps failures through `Error::from`, ignores the context bag; the
trace records that the transport fired once. -/
def ReqwestService.call (s : ReqwestService) (req : Request) (ext : Extensions) :
    Except Error Response × Extensions × Trace :=
  (match s.client.execute req with
   | Except.ok resp => Except.ok resp
   | Except.error e => Except.error (Error.from e),
   ext, [Event.transport])

/-- The transport unit as a `ServiceF` value. -/
def ReqwestService.toFn (s : ReqwestService) : ServiceF :=
  fun req ext => s.call req ext

/-- `ClientWithMiddleware::request` (client.rs lines 110-119): make a fresh
empty bag, start the reqwest builder, run the initialiser chain once over both,
and package the result; the initialiser chain's trace is returned alongside. -/
def ClientWithMiddleware.request {M I : Type} [RequestInitialiser I]
    (self : ClientWithMiddleware M I) (method : String) (url : String) :
    RequestBuilder M I × Trace :=
  let extensions := Extensions.new
  let request0 := self.inner.request method url
  let (request1, extensions1, t) :=
    RequestInitialiser.init self.initialiser_stack request0 extensions
  ({ inner := request1, client := self, extensions := extensions1 }, t)

/-- `ClientWithMiddleware::get` (client.rs lines 80-82). -/
def ClientWithMiddleware.get {M I : Type} [RequestInitialiser I]
    (self : ClientWithMiddleware M I) (url : String) : RequestBuilder M I × Trace :=
  self.request "GET" url

/-- `ClientWithMiddleware::post` (client.rs lines 85-87). -/
def ClientWithMiddleware.post {M I : Type} [RequestInitialiser I]
    (self : ClientWithMiddleware M I) (url : String) : RequestBuilder M I × Trace :=
  self.request "POST" url

/-- `ClientWithMiddleware::put` (client.rs lines 90-92). -/
def ClientWithMiddleware.put {M I : Type} [RequestInitialiser I]
    (self : ClientWithMiddleware M I) (url : String) : RequestBuilder M I × Trace :=
  self.request "PUT" url

/-- `ClientWithMiddleware::patch` (client.rs lines 95-97). -/
def ClientWithMiddleware.patch {M I : Type} [RequestInitialiser I]
    (self : ClientWithMiddleware M I) (url : String) : RequestBuilder M I × Trace :=
  self.request "PATCH" url

/-- `ClientWithMiddleware::delete` (client.rs lines 100-102). -/
def ClientWithMiddleware.delete {M I : Type} [RequestInitialiser I]
    (self : ClientWithMiddleware M I) (url : String) : RequestBuilder M I × Trace :=
  self.request "DELETE" url

/-- `ClientWithMiddleware::head` (client.rs lines 105-107). -/
def ClientWithMiddleware.head {M I : Type} [RequestInitialiser I]
    (self : ClientWithMiddleware M I) (url : String) : RequestBuilder M I × Trace :=
  self.request "HEAD" url

namespace RequestBuilder

variable {M I : Type}

/-- `RequestBuilder::header` (client.rs lines 166-177): pass-through to the
inner builder, everything else kept by `..self`. -/
def header (self : RequestBuilder M I) (key val : String) : RequestBuilder M I :=
  { self with inner := self.inner.header key val }

/-- `RequestBuilder::headers` (client.rs lines 179-184). -/
def headers (self : RequestBuilder M I) (hs : List (String × String)) :
    RequestBuilder M I :=
  { self with inner := self.inner.headers hs }

/-- `RequestBuilder::basic_auth` (client.rs lines 186-195). -/
def basic_auth (self : RequestBuilder M I) (username : String)
    (password : Option String) : RequestBuilder M I :=
  { self with inner := self.inner.basic_auth username password }

/-- `RequestBuilder::bearer_auth` (client.rs lines 197-205). -/
def bearer_auth (self : RequestBuilder M I) (token : String) : RequestBuilder M I :=
  { self with inner := self.inner.bearer_auth token }

/-- `RequestBuilder::body` (client.rs lines 207-212). -/
def body (self : RequestBuilder M I) (bd : Body) : RequestBuilder M I :=
  { self with inner := self.inner.body bd }

/-- `RequestBuilder::timeout` (client.rs lines 214-219). -/
def timeout (self : RequestBuilder M I) (t : Nat) : RequestBuilder M I :=
  { self with inner := self.inner.timeout t }

/-- `RequestBuilder::multipart` (client.rs lines 221-226). -/
def multipart (self : RequestBuilder M I) (form : List Nat) : RequestBuilder M I :=
  { self with inner := self.inner.multipart form }

/-- `RequestBuilder::query` (client.rs lines 228-233). -/
def query (self : RequestBuilder M I) (q : String) : RequestBuilder M I :=
  { self with inner := self.inner.query q }

/-- `RequestBuilder::form` (client.rs lines 235-240). -/
def form (self : RequestBuilder M I) (f : String) : RequestBuilder M I :=
  { self with inner := self.inner.form f }

/-- `RequestBuilder::json` (client.rs lines 242-247). -/
def json (self : RequestBuilder M I) (j : String) : RequestBuilder M I :=
  { self with inner := self.inner.json j }

/-- `RequestBuilder::build` (client.rs lines 249-251). -/
def build (self : RequestBuilder M I) : Except ReqwestError Request :=
  self.inner.build

/-- `RequestBuilder::with_extension` (client.rs lines 254-257). -/
def with_extension (self : RequestBuilder M I) (key val : Nat) :
    RequestBuilder M I :=
  { self with extensions := self.extensions.insert key val }

/-- `RequestBuilder::send` (client.rs lines 264-277): materialize the request
(returning the converted error on failure before anything else), compose the
registered stack over a fresh transport unit holding a clone of the engine
handle, and invoke it once on the request and this builder's bag. -/
def send [Layer M] (self : RequestBuilder M I) : Except Error Response × Trace :=
  match self.inner.build with
  | Except.error e => (Except.error (Error.from e), [])
  | Except.ok req =>
    let svc := Layer.layer self.client.middleware_stack
      (ReqwestService.mk self.client.inner).toFn
    let (r, _, t) := svc req self.extensions
    (r, t)

/-- `RequestBuilder::try_clone` (client.rs lines 286-292): clone the inner
builder if possible, keep the client, and start the clone's bag empty. -/
def try_clone (self : RequestBuilder M I) : Option (RequestBuilder M I) :=
  (self.inner.try_clone).map (fun inner =>
    { inner := inner, client := self.client, extensions := Extensions.new })

end RequestBuilder

/-! Machinery for reasoning about an arbitrary number of registrations:
the type and value of the middleware stack accumulated by folding
`ClientBuilder::with` over a list of layers, all of one layer type `L`. -/

/-- The type of the middleware stack after registering each element of `ls`
in order on top of an accumulated stack of type `M`. -/
def StackOf (L M : Type) : List L → Type
  | [] => M
  | _ :: rest => StackOf L (Stack L M) rest

/-- The middleware-stack value produced by registering each element of `ls`
in order via the `Stack(inner := new, outer := old)` rule of
`ClientBuilder::with`. -/
def stackAll {L M : Type} : (ls : List L) → M → StackOf L M ls
  | [], s => s
  | l :: rest, s => stackAll rest { inner := l, outer := s }

/-- Register every element of `ls` in order via `ClientBuilder::withM`. -/
def ClientBuilder.withAll {L M I : Type} :
    (ls : List L) → ClientBuilder M I → ClientBuilder (StackOf L M ls) I
  | [], b => b
  | l :: rest, b => ClientBuilder.withAll rest (b.withM l)

/-- The `Layer` instance of an accumulated stack type, made explicit so that
statements can quantify over the list of registrations. -/
def layerForStackOf {L : Type} [Layer L] :
    (ls : List L) → (M : Type) → Layer M → Layer (StackOf L M ls)
  | [], _, im => im
  | _ :: rest, M, im =>
    layerForStackOf rest (Stack L M) (@instLayerStack L M _ im)

/-- An instrumented middleware that logs entry before delegating and exit
after control returns — the spec's counter/logging middleware shape. -/
def logMw (id : Nat) : ServiceF → ServiceF :=
  fun next req ext =>
    let (r, ext2, t) := next req ext
    (r, ext2, Event.enter id :: (t ++ [Event.leave id]))

/-- An initialiser that inserts a value into the context bag and logs that it
ran — the spec's bag-seeding initialiser shape. -/
def seedInit (id : Nat) (key val : Nat) :
    ReqwestRequestBuilder → Extensions → ReqwestRequestBuilder × Extensions × Trace :=
  fun rb e => (rb, e.insert key val, [Event.initRun id])

/-- Helper lemma: fields of a builder are untouched by `withAll` except the
middleware stack, which accumulates by the `with` rule. -/
theorem withAll_fields {L M I : Type} (ls : List L) (b : ClientBuilder M I) :
    (ClientBuilder.withAll ls b).client = b.client ∧
    (ClientBuilder.withAll ls b).initialiser_stack = b.initialiser_stack ∧
    (ClientBuilder.withAll ls b).middleware_stack = stackAll ls b.middleware_stack := by
  induction ls generalizing M b with
  | nil => exact ⟨rfl, rfl, rfl⟩
  | cons l rest ih =>
    simpa [ClientBuilder.withAll, stackAll, ClientBuilder.withM] using
      ih (b.withM l)

/-- Helper lemma: composing the stack accumulated from `ls` over base stack
value `s` and base unit `B` wraps `B` first in the elements of `ls`
(first-registered outermost) and then in `s`. -/
theorem layer_stackAll {L : Type} [Layer L] (ls : List L) (M : Type)
    (im : Layer M) (s : M) (B : ServiceF) :
    (layerForStackOf ls M im).layer (stackAll ls s) B
      = im.layer s (ls.foldr (fun l acc => Layer.layer l acc) B) := by
  induction ls generalizing M s with
  | nil => rfl
  | cons l rest ih =>
    simpa [stackAll, layerForStackOf, List.foldr, instLayerStack] using
      ih (Stack L M) (@instLayerStack L M _ im) { inner := l, outer := s }

/-- Helper lemma: the Identity layer leaves a unit of work unchanged. -/
theorem identity_layer (B : ServiceF) : Layer.layer Identity.mk B = B := rfl

/-- Helper lemma: the trace of a foldr-composed chain of logging middleware
over any base unit: entries in list order, then the base unit's own trace,
then exits in reverse list order. -/
theorem logMw_foldr_trace (ids : List Nat) (B : ServiceF) (req : Request)
    (ext : Extensions) :
    (ids.foldr (fun i acc => Layer.layer (logMw i) acc) B) req ext
      = ((B req ext).1, (B req ext).2.1,
         ids.map Event.enter ++ (B req ext).2.2
           ++ (ids.reverse.map Event.leave)) := by
  induction ids with
  | nil => simp
  | cons i rest ih =>
    simp only [List.foldr, Layer.layer, instLayerFn] at ih ⊢
    simp [logMw, ih, List.append_assoc]

/-! Concrete fixtures used by the witness theorems. -/

/-- A transport engine that answers every request with status 200. -/
def testClient : Client := ⟨fun _ => Except.ok ⟨200, [1, 2, 3]⟩⟩

/-- A transport engine that refuses every request. -/
def failingClient : Client :=
  ⟨fun _ => Except.error (ReqwestError.transport "connection refused")⟩

/-- The request materialized from a fresh GET builder for target "u". -/
def testReq : Request :=
  { method := "GET", url := "u", headers := [], body := none, timeout := none }

/-- A fresh request builder on a middleware-free client. -/
def testRB : RequestBuilder Identity Identity :=
  ((ClientWithMiddleware.fromClient testClient).get "u").1

/-- The clone that `try_clone` produces from `testRB`. -/
def testRBClone : RequestBuilder Identity Identity :=
  { inner := testRB.inner, client := testRB.client, extensions := Extensions.new }

/-- C2: each `with` call produces Stack(inner := the new layer, outer := the
accumulated stack of the earlier layers), each `with_init` call produces the
analogous RequestStack, the accumulation starts from Identity in
`ClientBuilder::new`, and folding a whole registration sequence therefore
yields the nested stack value described by `stackAll`. -/
theorem c2_with_builds_stack {M I T U L : Type} (b : ClientBuilder M I)
    (layer : T) (ini : U) (c : Client) (ls : List L) :
    (b.withM layer).middleware_stack
        = { inner := layer, outer := b.middleware_stack } ∧
    (b.with_init ini).initialiser_stack
        = { inner := ini, outer := b.initialiser_stack } ∧
    (ClientBuilder.new c).middleware_stack = Identity.mk ∧
    (ClientBuilder.new c).initialiser_stack = Identity.mk ∧
    (ClientBuilder.withAll ls b).middleware_stack = stackAll ls b.middleware_stack :=
  ⟨rfl, rfl, rfl, rfl, (withAll_fields ls b).2.2⟩

/-- C5: `try_clone` returns `none` exactly when the pending request body is a
streaming source; otherwise it returns a builder with the same inner request
and client whose context bag is empty, whatever the original bag held. -/
theorem c5_try_clone_semantics {M I : Type} (b : RequestBuilder M I) :
    (b.try_clone = none ↔ b.inner.isStreaming = true) ∧
    (∀ b' : RequestBuilder M I, b.try_clone = some b' →
      b'.extensions = Extensions.new ∧ b'.inner = b.inner ∧ b'.client = b.client) := by
  constructor
  · cases h : b.inner.isStreaming <;>
      simp [RequestBuilder.try_clone, ReqwestRequestBuilder.try_clone, h]
  · intro b' hb
    cases h : b.inner.isStreaming <;>
      simp [RequestBuilder.try_clone, ReqwestRequestBuilder.try_clone, h] at hb
    exact ⟨hb ▸ rfl, hb ▸ rfl, hb ▸ rfl⟩

/-- C5 witness: on a concrete buffered-body builder, `try_clone` succeeds and
the clone's bag is empty. -/
theorem c5_try_clone_semantics_witness :
    testRB.try_clone = some testRBClone ∧ testRBClone.extensions = Extensions.new := by
  refine ⟨rfl, ?_⟩
  exact ((c5_try_clone_semantics testRB).2 testRBClone rfl).1

/-- C6: the terminal transport unit fires the engine exactly once per call
(its trace is a single transport event), returns the context bag unchanged,
produces a result that does not depend on the bag's contents, and maps an
engine failure into the crate error type via `Error::from`. -/
theorem c6_transport_unit (s : ReqwestService) (req : Request)
    (ext ext' : Extensions) (e : ReqwestError) :
    (s.call req ext).2.2 = [Event.transport] ∧
    (s.call req ext).2.1 = ext ∧
    (s.call req ext).1 = (s.call req ext').1 ∧
    (s.client.execute req = Except.error e →
      (s.call req ext).1 = Except.error (Error.from e)) := by
  refine ⟨rfl, rfl, rfl, ?_⟩
  intro h
  simp [ReqwestService.call, h]

/-- C6 witness: a refusing engine's failure comes back as the wrapped
transport error, with the bag untouched and one transport event. -/
theorem c6_transport_unit_witness :
    ((ReqwestService.mk failingClient).call testReq Extensions.new).2.2
        = [Event.transport] ∧
    ((ReqwestService.mk failingClient).call testReq Extensions.new).1
        = Except.error (Error.from (ReqwestError.transport "connection refused")) := by
  have h := c6_transport_unit (ReqwestService.mk failingClient) testReq
    Extensions.new Extensions.new (ReqwestError.transport "connection refused")
  exact ⟨h.1, h.2.2.2 rfl⟩

/-- C7: every fluent setter replaces only the inner reqwest builder by the
corresponding pass-through call and leaves the client and the context bag
untouched; being total functions here, none of them can fail — failure
surfaces only at materialization. -/
theorem c7_setters_frame {M I : Type} (b : RequestBuilder M I)
    (k v : String) (hs : List (String × String)) (un : String)
    (pw : Option String) (tok : String) (bd : Body) (t : Nat)
    (fm : List Nat) (q f j : String) :
    ((b.header k v).client = b.client ∧ (b.header k v).extensions = b.extensions ∧
      (b.header k v).inner = b.inner.header k v) ∧
    ((b.headers hs).client = b.client ∧ (b.headers hs).extensions = b.extensions ∧
      (b.headers hs).inner = b.inner.headers hs) ∧
    ((b.basic_auth un pw).client = b.client ∧
      (b.basic_auth un pw).extensions = b.extensions ∧
      (b.basic_auth un pw).inner = b.inner.basic_auth un pw) ∧
    ((b.bearer_auth tok).client = b.client ∧
      (b.bearer_auth tok).extensions = b.extensions ∧
      (b.bearer_auth tok).inner = b.inner.bearer_auth tok) ∧
    ((b.body bd).client = b.client ∧ (b.body bd).extensions = b.extensions ∧
      (b.body bd).inner = b.inner.body bd) ∧
    ((b.timeout t).client = b.client ∧ (b.timeout t).extensions = b.extensions ∧
      (b.timeout t).inner = b.inner.timeout t) ∧
    ((b.multipart fm).client = b.client ∧
      (b.multipart fm).extensions = b.extensions ∧
      (b.multipart fm).inner = b.inner.multipart fm) ∧
    ((b.query q).client = b.client ∧ (b.query q).extensions = b.extensions ∧
      (b.query q).inner = b.inner.query q) ∧
    ((b.form f).client = b.client ∧ (b.form f).extensions = b.extensions ∧
      (b.form f).inner = b.inner.form f) ∧
    ((b.json j).client = b.client ∧ (b.json j).extensions = b.extensions ∧
      (b.json j).inner = b.inner.json j) :=
  ⟨⟨rfl, rfl, rfl⟩, ⟨rfl, rfl, rfl⟩, ⟨rfl, rfl, rfl⟩, ⟨rfl, rfl, rfl⟩,
   ⟨rfl, rfl, rfl⟩, ⟨rfl, rfl, rfl⟩, ⟨rfl, rfl, rfl⟩, ⟨rfl, rfl, rfl⟩,
   ⟨rfl, rfl, rfl⟩, ⟨rfl, rfl, rfl⟩⟩

/-- A request builder carrying one logging middleware whose header
materialization fails (newline in a header value). -/
def testFailRB : RequestBuilder (Stack (ServiceF → ServiceF) Identity) Identity :=
  (((((ClientBuilder.new testClient).withM (logMw 1)).build).get "u").1).header
    "x-a" "a\nb"

/-- A fresh request builder carrying one logging middleware, with a valid
pending request. -/
def testMwRB : RequestBuilder (Stack (ServiceF → ServiceF) Identity) Identity :=
  ((((ClientBuilder.new testClient).withM (logMw 1)).build).get "u").1

/-- C4: when materialization fails, `send` returns the converted build error
and its trace is empty — neither any middleware unit nor the transport ran,
because the error returns before the middleware chain is even composed. -/
theorem c4_build_error_fail_fast {M I : Type} [Layer M] (b : RequestBuilder M I)
    (msg : String)
    (h : b.inner.build = Except.error (ReqwestError.build msg)) :
    b.send = (Except.error (Error.Reqwest (ReqwestError.build msg)), []) ∧
    (Error.Reqwest (ReqwestError.build msg)).isBuild = true := by
  refine ⟨?_, rfl⟩
  simp [RequestBuilder.send, h, Error.from]

/-- C4 witness: a builder given an invalid header value, on a client carrying
a logging middleware, sends to a build error with zero recorded invocations. -/
theorem c4_build_error_fail_fast_witness :
    testFailRB.send
        = (Except.error (Error.Reqwest (ReqwestError.build "invalid header")), []) :=
  (c4_build_error_fail_fast testFailRB "invalid header" (by decide)).1

/-- C8: with the Identity middleware stack (no registered middleware),
`send` behaves exactly as one direct call of the terminal transport unit on
the built request and this builder's bag. -/
theorem c8_identity_neutral {I : Type} (b : RequestBuilder Identity I)
    (req : Request) (h : b.inner.build = Except.ok req) :
    b.send = (((ReqwestService.mk b.client.inner).call req b.extensions).1,
              ((ReqwestService.mk b.client.inner).call req b.extensions).2.2) := by
  simp [RequestBuilder.send, h, Layer.layer, instLayerIdentity, ReqwestService.toFn]

/-- C8 witness: a middleware-free send on a concrete client equals the
direct transport call on the built request. -/
theorem c8_identity_neutral_witness :
    testRB.send = (((ReqwestService.mk testClient).call testReq Extensions.new).1,
                   ((ReqwestService.mk testClient).call testReq Extensions.new).2.2) :=
  c8_identity_neutral testRB testReq rfl

/-- The pipeline `send` composes on each invocation: the registered stack's layer
operation applied to a fresh terminal unit holding the client handle. -/
def composedPipeline {M I : Type} [Layer M] (c : ClientWithMiddleware M I) :
    ServiceF :=
  Layer.layer c.middleware_stack (ReqwestService.mk c.inner).toFn

/-- C9: `send` factors through `composedPipeline`, a pure function of the
registered stack and the transport handle alone, composed anew from the
configuration at each invocation; and that pipeline is fully determined by
the registered stack plus the handle — no other (mutable) state enters. -/
theorem c9_fresh_composition {M I : Type} [Layer M] (b : RequestBuilder M I)
    (c1 c2 : ClientWithMiddleware M I) (req : Request)
    (h : b.inner.build = Except.ok req) :
    b.send = ((composedPipeline b.client req b.extensions).1,
              (composedPipeline b.client req b.extensions).2.2) ∧
    (c1.middleware_stack = c2.middleware_stack → c1.inner = c2.inner →
      composedPipeline c1 = composedPipeline c2) := by
  constructor
  · simp [RequestBuilder.send, h, composedPipeline]
  · intro h1 h2
    unfold composedPipeline
    rw [h1, h2]

/-- C9 witness: a concrete send with one registered middleware equals the
freshly composed pipeline applied to the built request and bag. -/
theorem c9_fresh_composition_witness :
    testMwRB.send = ((composedPipeline testMwRB.client testReq Extensions.new).1,
                     (composedPipeline testMwRB.client testReq Extensions.new).2.2) :=
  (c9_fresh_composition testMwRB testMwRB.client testMwRB.client testReq rfl).1

/-- A probe middleware: at entry it records the context-bag value stored
under `k`, then delegates with the bag untouched. -/
def obsMw (k : Nat) : ServiceF → ServiceF :=
  fun next req ext =>
    let (r, ext2, t) := next req ext
    (r, ext2, Event.observed k (ext.get k) :: t)

/-- Helper lemma: a chain of probe middleware over any base unit records one
observation of the incoming bag value per probe, before the base trace. -/
theorem obsMw_foldr_trace (n : Nat) (k : Nat) (B : ServiceF)
    (req : Request) (ext : Extensions) :
    (List.replicate n (obsMw k)).foldr (fun l acc => l acc) B req ext
      = ((B req ext).1, (B req ext).2.1,
         List.replicate n (Event.observed k (ext.get k)) ++ (B req ext).2.2) := by
  induction n with
  | zero => simp
  | succ n ih =>
    simp only [List.replicate_succ, List.foldr]
    simp [obsMw, ih]

/-- A client whose middleware stack is a chain of bag probes (one per element
of `ids`, all watching key `k`) over an arbitrary initialiser stack. -/
def probeClient (ids : List Nat) (k : Nat) (cl : Client) {I : Type}
    (istack : I) :
    ClientWithMiddleware
      (StackOf (ServiceF → ServiceF) Identity (ids.map (fun _ => obsMw k))) I :=
  { inner := cl,
    middleware_stack := stackAll (ids.map (fun _ => obsMw k)) Identity.mk,
    initialiser_stack := istack }

/-- C3: the bag carried by the builder that `request` returns is exactly the
bag value the initialiser chain produced from the fresh empty bag (the same
instance threaded on, not a copy), and during `send` every registered
middleware unit observes, unmodified, the value the initialisers stored in
it. -/
theorem c3_bag_threading (ids : List Nat) (k : Nat) (cl : Client)
    {I : Type} [RequestInitialiser I] (istack : I) (m u : String)
    (req : Request) :
    ((probeClient ids k cl istack).request m u).1.extensions
        = (RequestInitialiser.init istack (cl.request m u) Extensions.new).2.1 ∧
    ((((probeClient ids k cl istack).request m u).1.inner.build = Except.ok req) →
      (@RequestBuilder.send _ _
          (layerForStackOf (ids.map (fun _ => obsMw k)) Identity instLayerIdentity)
          (((probeClient ids k cl istack).request m u).1)).2
        = ids.map (fun _ => Event.observed k
            (((RequestInitialiser.init istack (cl.request m u) Extensions.new).2.1).get k))
          ++ [Event.transport]) := by
  rcases hinit : RequestInitialiser.init istack (cl.request m u) Extensions.new
    with ⟨rb1, e1, t1⟩
  have hrb : ((probeClient ids k cl istack).request m u).1
      = { inner := rb1, client := probeClient ids k cl istack, extensions := e1 } := by
    simp [ClientWithMiddleware.request, probeClient, hinit]
  constructor
  · rw [hrb]
  · intro h
    rw [hrb] at h ⊢
    simp only [RequestBuilder.send, h]
    rw [show (probeClient ids k cl istack).middleware_stack
        = stackAll (ids.map (fun _ => obsMw k)) Identity.mk from rfl]
    rw [layer_stackAll]
    simp [obsMw_foldr_trace, Layer.layer, instLayerIdentity,
      ReqwestService.toFn, ReqwestService.call]

/-- C3 witness: with a seeding initialiser and two probe middleware, both
probes observe the seeded value, and the builder's bag is the seeded bag. -/
theorem c3_bag_threading_witness :
    ((probeClient [1, 2] 1 testClient (seedInit 7 1 42)).request "GET" "u").1.extensions
        = Extensions.new.insert 1 42 ∧
    (@RequestBuilder.send _ _
        (layerForStackOf ([1, 2].map (fun _ => obsMw 1)) Identity instLayerIdentity)
        (((probeClient [1, 2] 1 testClient (seedInit 7 1 42)).request "GET" "u").1)).2
      = [Event.observed 1 (some 42), Event.observed 1 (some 42), Event.transport] := by
  have h := c3_bag_threading [1, 2] 1 testClient (seedInit 7 1 42) "GET" "u" testReq
  exact ⟨h.1.trans (by rfl), (h.2 (by rfl)).trans (by rfl)⟩

/-- C10: the initialiser chain runs exactly once per builder, inside
`request` — the builder-creation trace is precisely one application of the
chain to the fresh bag; every convenience method is `request` with the fixed
method; a fluent setter leaves the bag (hence any initialiser seeding)
untouched; and a builder obtained from `try_clone` holds no bag entry at all,
so no initialiser-seeded entry survives into the clone. -/
theorem c10_init_exactly_once {M I : Type} [RequestInitialiser I]
    (c : ClientWithMiddleware M I) (m u hk hv : String) :
    (c.request m u).2
        = (RequestInitialiser.init c.initialiser_stack (c.inner.request m u)
            Extensions.new).2.2 ∧
    c.get u = c.request "GET" u ∧
    c.post u = c.request "POST" u ∧
    c.put u = c.request "PUT" u ∧
    c.patch u = c.request "PATCH" u ∧
    c.delete u = c.request "DELETE" u ∧
    c.head u = c.request "HEAD" u ∧
    ((c.request m u).1.header hk hv).extensions = (c.request m u).1.extensions ∧
    (∀ rb' : RequestBuilder M I, (c.request m u).1.try_clone = some rb' →
      ∀ key : Nat, rb'.extensions.get key = none) := by
  rcases hinit : RequestInitialiser.init c.initialiser_stack
      (c.inner.request m u) Extensions.new with ⟨rb1, e1, t1⟩
  refine ⟨?_, rfl, rfl, rfl, rfl, rfl, rfl, rfl, ?_⟩
  · simp [ClientWithMiddleware.request, hinit]
  · intro rb' h key
    rcases hcl : (c.request m u).1.inner.try_clone with _ | bi
    · simp [RequestBuilder.try_clone, hcl] at h
    · simp [RequestBuilder.try_clone, hcl] at h
      rw [← h]
      rfl

/-- A client with a single bag-seeding initialiser registered. -/
def testInitClient :
    ClientWithMiddleware Identity
      (RequestStack (ReqwestRequestBuilder → Extensions →
        ReqwestRequestBuilder × Extensions × Trace) Identity) :=
  ((ClientBuilder.new testClient).with_init (seedInit 7 1 42)).build

/-- The builder created by the seeding client. -/
def testInitRB :
    RequestBuilder Identity
      (RequestStack (ReqwestRequestBuilder → Extensions →
        ReqwestRequestBuilder × Extensions × Trace) Identity) :=
  (testInitClient.request "GET" "u").1

/-- The clone `try_clone` produces from `testInitRB`. -/
def testInitClone :
    RequestBuilder Identity
      (RequestStack (ReqwestRequestBuilder → Extensions →
        ReqwestRequestBuilder × Extensions × Trace) Identity) :=
  { inner := testInitRB.inner, client := testInitRB.client,
    extensions := Extensions.new }

/-- C10 witness: on a concrete client the seeding initialiser runs exactly
once at builder creation, its entry is in the builder's bag, and the clone's
bag does not contain it. -/
theorem c10_init_exactly_once_witness :
    (testInitClient.request "GET" "u").2 = [Event.initRun 7] ∧
    testInitRB.extensions.get 1 = some 42 ∧
    testInitRB.try_clone = some testInitClone ∧
    testInitClone.extensions.get 1 = none := by
  have h := c10_init_exactly_once testInitClient "GET" "u" "x-a" "b"
  refine ⟨h.1.trans (by rfl), by rfl, by rfl, ?_⟩
  exact h.2.2.2.2.2.2.2.2 testInitClone (by rfl) 1

/-- C1: for layers registered in order via `with` and composed against the
terminal transport unit when `send` runs — under the law
Stack(inner, outer).compose(B) = outer.compose(inner.compose(B)) with
Identity.compose(B) = B — the composed unit is the foldr of the registered
layers over the base (first registered outermost, last registered adjacent
to the base), for every registration list including the empty one; with
logging middleware, `send`'s trace enters in registration order, fires the
transport, and exits in reverse registration order. -/
theorem c1_first_registered_outermost (ids : List Nat) (cl : Client)
    (m u : String) :
    (@RequestBuilder.send _ _
        (layerForStackOf (ids.map logMw) Identity instLayerIdentity)
        ((((ClientBuilder.withAll (ids.map logMw) (ClientBuilder.new cl)).build).request
            m u).1)).2
      = ids.map Event.enter ++ [Event.transport] ++ ids.reverse.map Event.leave ∧
    (∀ (L : Type) (il : Layer L) (ls : List L) (B : ServiceF),
      (layerForStackOf ls Identity instLayerIdentity).layer
          ((ClientBuilder.withAll ls (ClientBuilder.new cl)).middleware_stack) B
        = ls.foldr (fun l acc => il.layer l acc) B) := by
  constructor
  · have hms := (withAll_fields (ids.map logMw) (ClientBuilder.new cl)).2.2
    have hrb : ((((ClientBuilder.withAll (ids.map logMw) (ClientBuilder.new cl)).build).request
          m u).1)
        = { inner := (ClientBuilder.withAll (ids.map logMw)
              (ClientBuilder.new cl)).client.request m u,
            client := (ClientBuilder.withAll (ids.map logMw) (ClientBuilder.new cl)).build,
            extensions := Extensions.new } := rfl
    rw [hrb]
    simp only [RequestBuilder.send, Client.request, ReqwestRequestBuilder.build,
      ClientBuilder.build]
    rw [show (ClientBuilder.withAll (ids.map logMw)
        (ClientBuilder.new cl)).middleware_stack
        = stackAll (ids.map logMw) Identity.mk from hms]
    rw [layer_stackAll]
    rw [List.foldr_map]
    rw [identity_layer]
    rw [logMw_foldr_trace]
    simp [ReqwestService.toFn, ReqwestService.call]
  · intro L il ls B
    have hms := (withAll_fields ls (ClientBuilder.new cl)).2.2
    rw [show (ClientBuilder.withAll ls (ClientBuilder.new cl)).middleware_stack
        = stackAll ls Identity.mk from hms]
    exact @layer_stackAll L il ls Identity instLayerIdentity Identity.mk B

end RM
